import Mathlib

/-
Shallow embedding of the observation-lifecycle core of satnogs-network.

The embedded code lives in:
  * network/base/signals.py   (_observation_post_save, _station_post_save, _tle_post_save)
  * network/base/models.py    (Station.is_online, Station.is_offline, Station.success_rate,
                               the model fields the hooks read and write)
  * network/base/tasks.py     (update_future_observations_with_new_tle_sets, archive_audio,
                               sync_to_db, station_status_update)

The repository holds two variants of the observation post-save hook (an older one in
models.py without the transmitter-mode exclusion, and the one in signals.py with it);
the signals.py variant is the documented contract and is the one embedded here.

Modelling conventions:
  * datetimes are integers (minutes, for the 10-minute TLE buffer and the heartbeat
    window; the unit is irrelevant to the proofs);
  * Django file fields are `Option String` (none = empty/absent file);
  * nullable foreign keys are `Option _`;
  * external effects (TinyTag metadata, the internetarchive upload, the SiDS push)
    are inputs to the functions that consume them;
  * a Python exception that escapes a function is `Except.error`.
-/

/-- The four vetting statuses of OBSERVATION_STATUSES in network/base/models.py
(the choices constraint on Observation.vetted_status). -/
inductive VetStatus
  | unknown
  | good
  | bad
  | failed
deriving DecidableEq

/-- Outcome of reading the audio metadata with TinyTag in _observation_post_save:
a readable file with duration at least one second (valid), a readable file whose
duration is missing or below one second (tooShort), or a file whose parsing raises
TinyTagException, struct.error or TypeError (malformed). -/
inductive AudioCheck
  | valid
  | tooShort
  | malformed
deriving DecidableEq

/-- The Observation fields read and written by _observation_post_save in
network/base/signals.py.  `ground_station` keeps only the linked station's testing
flag; `none` models a NULL foreign key (the field is declared with null=True in
models.py).  `payload` presence stands for has_audio (the filesystem checks of the
has_audio property are abstracted into the presence of the file field); the
archive_url branch of has_audio coincides with archived = true, and the audio block
is skipped for archived observations anyway. -/
structure Observation where
  payload : Option String
  archived : Bool
  ground_station : Option Bool
  testing : Bool
  has_demoddata : Bool
  transmitter_mode : String
  vetted_status : VetStatus
  vetted_datetime : Option Int
deriving DecidableEq

/-- The audio-validation block at the top of _observation_post_save
(signals.py lines 27-40): when the observation has audio and is not archived,
a too-short or malformed file is deleted, and a valid file enqueues archive_audio
when the environment is production and the file is on disk.  Returns the updated
observation and whether archive_audio was enqueued. -/
def audioStep (production fileOnDisk : Bool) (audio : AudioCheck) (obs : Observation) :
    Observation × Bool :=
  if obs.payload.isSome && !obs.archived then
    match audio with
    | .tooShort => ({ obs with payload := none }, false)
    | .malformed => ({ obs with payload := none }, false)
    | .valid => (obs, production && fileOnDisk)
  else (obs, false)

/-- The auto-vet block of _observation_post_save (signals.py lines 44-48): an
observation with at least one DemodData frame, vetted_status unknown and a
transmitter mode other than CW is vetted good and stamped with the current time. -/
def vetStep (tNow : Int) (obs : Observation) : Observation :=
  if obs.has_demoddata && obs.vetted_status == .unknown && obs.transmitter_mode != "CW" then
    { obs with vetted_status := .good, vetted_datetime := some tNow }
  else obs

/-- _observation_post_save from network/base/signals.py.  The disconnect/connect
re-entrancy guard around the body makes the nested instance.save() calls plain
writes, so the hook is one state transformation.  Inputs: `created` is the Django
post-save created flag, `production` and `fileOnDisk` stand for the
settings.ENVIRONMENT == 'production' test and os.path.isfile, `audio` the TinyTag
outcome, `tNow` the value of now().  Returns the saved observation and whether
archive_audio was enqueued, or an error when the hook raises: for a created
observation it dereferences instance.ground_station.testing, which raises
AttributeError when the nullable foreign key is NULL. -/
def observationPostSave (created production fileOnDisk : Bool) (audio : AudioCheck)
    (tNow : Int) (obs : Observation) : Except String (Observation × Bool) :=
  let p := audioStep production fileOnDisk audio obs
  if created then
    match p.1.ground_station with
    | none => .error "AttributeError: NoneType has no attribute testing"
    | some gsTesting =>
        let o := if gsTesting then { p.1 with testing := true } else p.1
        .ok (vetStep tNow o, p.2)
  else
    .ok (vetStep tNow p.1, p.2)

/-- Projection of a hook result onto the two vetting fields. -/
def hookVet (r : Except String (Observation × Bool)) : Option (VetStatus × Option Int) :=
  r.toOption.map (fun q => (q.1.vetted_status, q.1.vetted_datetime))

/-- The Station fields read and written by _station_post_save and
station_status_update: the heartbeat timestamp (nullable), the testing flag and
the stored status (0 offline, 1 testing, 2 online per STATION_STATUSES). -/
structure Station where
  last_seen : Option Int
  testing : Bool
  status : Nat
deriving DecidableEq

/-- Station.is_online from network/base/models.py: last_seen plus the configured
heartbeat window is still in the future; a NULL last_seen raises TypeError which
the property catches, returning False. -/
def Station.is_online (heartbeatWindow tNow : Int) (st : Station) : Bool :=
  match st.last_seen with
  | none => false
  | some seen => decide (seen + heartbeatWindow > tNow)

/-- Station.is_offline from network/base/models.py. -/
def Station.is_offline (heartbeatWindow tNow : Int) (st : Station) : Bool :=
  !(st.is_online heartbeatWindow tNow)

/-- The status derivation repeated verbatim in _station_post_save
(signals.py lines 60-65) and station_status_update (tasks.py lines 261-266):
offline stations get 0, testing stations 1, the rest 2. -/
def deriveStatus (heartbeatWindow tNow : Int) (st : Station) : Nat :=
  if st.is_offline heartbeatWindow tNow then 0
  else if st.testing then 1
  else 2

/-- _station_post_save from network/base/signals.py.  On a non-created save the
status is recomputed and persisted, and one StationStatusLog row with the new
status is appended exactly when it differs from the stored one; on a created save
one row with the saved status is always appended.  Returns the saved station and
the list of appended log-row statuses. -/
def stationPostSave (heartbeatWindow tNow : Int) (created : Bool) (st : Station) :
    Station × List Nat :=
  if created then
    (st, [st.status])
  else
    let current_status := st.status
    let st2 := { st with status := deriveStatus heartbeatWindow tNow st }
    if st2.status ≠ current_status then (st2, [st2.status]) else (st2, [])

/-- The Observation fields read by Station.success_rate in network/base/models.py. -/
structure StationObs where
  testing : Bool
  vetted_status : VetStatus
deriving DecidableEq

/-- The filter self.observations.exclude(testing=True).exclude(vetted_status="unknown")
of Station.success_rate: non-testing, vetted (good, bad or failed). -/
def vettedNonTesting (o : StationObs) : Bool :=
  !o.testing && o.vetted_status != .unknown

/-- The generator o.is_good or o.is_bad inside Station.success_rate. -/
def goodOrBad (o : StationObs) : Bool :=
  o.vetted_status == .good || o.vetted_status == .bad

/-- Number of binary digits of n computed with a structurally recursive fuel
counter (bitlen n steps suffice and bitlen n is at most n). -/
def bitsAux : Nat → Nat → Nat
  | 0, _ => 0
  | fuel + 1, n => if n = 0 then 0 else bitsAux fuel (n / 2) + 1

/-- Number of binary digits of n (0 for 0). -/
def bitlen (n : Nat) : Nat := bitsAux n n

/-- Round a positive integer p, carrying a sticky flag that marks a nonzero
fraction strictly below one unit of p, to 53 significant bits, to nearest with
ties to even (the IEEE binary64 rounding).  p must have at least 54 binary
digits so that the rounding position falls inside p (all callers arrange this).
Returns (m, d): the rounded value is m * 2^d with 2^52 <= m < 2^53. -/
def round53 (p : Nat) (sticky : Bool) : Nat × Nat :=
  let d := bitlen p - 53
  let m0 := p / 2 ^ d
  let rest := p % 2 ^ d
  let half := 2 ^ (d - 1)
  let up : Bool :=
    if half < rest then true
    else if rest < half then false
    else if sticky then true
    else decide (m0 % 2 = 1)
  let m1 := if up then m0 + 1 else m0
  if m1 = 2 ^ 53 then (2 ^ 52, d + 1) else (m1, d)

/-- The binary64 value Python's float(n) yields for a natural number: exact
below 2^53, rounded to nearest-even above.  Dyadic pair (m, e) denotes m * 2^e. -/
def floatOfNat (n : Nat) : Nat × Int :=
  if n < 2 ^ 53 then (n, 0)
  else
    let md := round53 n false
    (md.1, (md.2 : Int))

/-- Correctly rounded binary64 division of positive dyadic values (round to
nearest, ties to even).  Exponents are unbounded here: binary64 overflow and
subnormal underflow cannot occur for the observation counts involved and are not
modelled. -/
def floatDiv (x y : Nat × Int) : Nat × Int :=
  let K := 55 + bitlen y.1
  let q := x.1 * 2 ^ K / y.1
  let r := x.1 * 2 ^ K % y.1
  let md := round53 q (decide (r ≠ 0))
  (md.1, x.2 - y.2 + (md.2 : Int) - (K : Int))

/-- Correctly rounded binary64 multiplication by the exactly representable
literal 100. -/
def floatMul100 (x : Nat × Int) : Nat × Int :=
  let p := 100 * x.1
  if p < 2 ^ 53 then (p, x.2)
  else
    let md := round53 p false
    (md.1, x.2 + (md.2 : Int))

/-- Truncation toward zero of a nonnegative dyadic value: Python's int(). -/
def truncDyadic (x : Nat × Int) : Nat :=
  match x.2 with
  | .ofNat k => x.1 * 2 ^ k
  | .negSucc k => x.1 / 2 ^ (k + 1)

/-- int(100 * (float(s) / float(c))) as CPython evaluates it for naturals s and
c with c nonzero: both conversions, the division and the multiplication round to
nearest binary64 (ties to even), and int() truncates toward zero.  Because of
the two float roundings this can land one below the exact floor: for example
pyIntRate 29 100 = 28 while 100 * 29 / 100 = 29. -/
def pyIntRate (s c : Nat) : Nat :=
  if s = 0 then 0
  else truncDyadic (floatMul100 (floatDiv (floatOfNat s) (floatOfNat c)))

/-- Station.success_rate from network/base/models.py (cache misses recompute this
value; the cache read-through returns the same value).  Python computes
int(100 * (float(success) / float(count))), embedded bit-exactly by pyIntRate.
An empty queryset returns False, modelled as none. -/
def Station.success_rate (obsList : List StationObs) : Option Nat :=
  let observations := obsList.filter vettedNonTesting
  let success := (observations.filter goodOrBad).length
  if observations.length = 0 then none
  else some (pyIntRate success observations.length)

/-- The success-rate formula as the spec words it: round(100 * good / (good + bad)),
where good and bad count the station's non-testing observations vetted good and bad
(rounding half up); none when there is no good or bad observation.  This definition
follows the spec sentence, for comparison with Station.success_rate above. -/
def specSuccessRate (obsList : List StationObs) : Option Nat :=
  let good := obsList.countP (fun o => !o.testing && o.vetted_status == .good)
  let bad := obsList.countP (fun o => !o.testing && o.vetted_status == .bad)
  if good + bad = 0 then none
  else some ((200 * good + (good + bad)) / (2 * (good + bad)))

/-- The Observation fields read and written by the archive_audio task. -/
structure ArchObs where
  id : Nat
  archived : Bool
  archive_identifier : String
  archive_url : Option String
  payload : Option String
deriving DecidableEq

/-- Outcome of the internetarchive upload call inside archive_audio: either the
call raises (requests.exceptions.RequestException or AuthenticationError, the
transport and authentication failures), or it returns a response with a status
code. -/
inductive UploadResult
  | requestError
  | response (statusCode : Nat)
deriving DecidableEq

/-- The thousand-bucket of archive_audio (tasks.py lines 169-171):
obs_thousand = ((obs_id - 1) // 1000) * 1000, range (obs_thousand + 1, obs_thousand + 1000). -/
def obsRange (obsId : Nat) : Nat × Nat :=
  let obsThousand := ((obsId - 1) / 1000) * 1000
  (obsThousand + 1, obsThousand + 1000)

/-- str(n).zfill(width): left-pad the decimal representation with zeros. -/
def zfill (width : Nat) (n : Nat) : String :=
  let s := toString n
  if s.length < width then String.mk (List.replicate (width - s.length) '0') ++ s
  else s

/-- The deterministic, range-bucketed item identifier of archive_audio
(tasks.py lines 172-174); the suffix is empty in production. -/
def itemId (environment : String) (obsId : Nat) : String :=
  let suffix := if environment == "production" then "" else "-" ++ environment
  let r := obsRange obsId
  "satnogs" ++ suffix ++ "-observations-" ++ zfill 9 r.1 ++ "-" ++ zfill 9 r.2

/-- obs.payload.name.split('/')[-1]: the last slash-separated component. -/
def fileNameOf (payloadName : String) : String :=
  String.mk (payloadName.data.foldl (fun acc c => if c == '/' then [] else acc ++ [c]) [])

/-- archive_audio from network/base/tasks.py.  Reading obs.payload.path raises
ValueError when the file field is empty, before any upload.  Otherwise upload is
called unconditionally (there is no check of obs.archived); a raised
RequestException or AuthenticationError is caught and the task returns with the
record untouched; a 200 response sets archived, archive_url and
archive_identifier, and deletes the local payload, in one save; any other status
code leaves the record untouched.  The Bool of the result records whether an
upload call was made. -/
def archive_audio (environment archiveUrl : String) (res : UploadResult) (obs : ArchObs) :
    Except String (ArchObs × Bool) :=
  match obs.payload with
  | none => .error "ValueError: the payload attribute has no file associated with it"
  | some payloadName =>
      match res with
      | .requestError => .ok (obs, true)
      | .response statusCode =>
          if statusCode == 200 then
            .ok ({ obs with
                    archived := true,
                    archive_url := some (archiveUrl ++ itemId environment obs.id ++ "/"
                                          ++ fileNameOf payloadName),
                    archive_identifier := itemId environment obs.id,
                    payload := none }, true)
          else .ok (obs, true)

/-- The Observation fields touched by update_future_observations_with_new_tle_sets
in network/base/tasks.py: the denormalized TLE lines, source and update timestamp,
plus the schedule start and the satellite NORAD id used by the filters. -/
structure FutureObs where
  norad_cat_id : Nat
  start : Int
  tle_line_0 : String
  tle_line_1 : String
  tle_line_2 : String
  tle_source : String
  tle_updated : Int
deriving DecidableEq

/-- One TLE set as returned by get_tle_sets_by_norad_id_set (the first element of
the per-satellite list); `updated` is the parsed update timestamp. -/
structure TleSet where
  tle0 : String
  tle1 : String
  tle2 : String
  tle_source : String
  updated : Int
deriving DecidableEq

/-- The effect of update_future_observations_with_new_tle_sets on one observation:
only observations with start strictly beyond now plus the 10-minute buffer are in
the future_observations queryset, and the batch update touches only those whose
tle_updated is strictly older than the fetched set's. -/
def updateObsWithTleSet (tNow : Int) (tleSets : Nat → Option TleSet) (o : FutureObs) :
    FutureObs :=
  if tNow + 10 < o.start then
    match tleSets o.norad_cat_id with
    | none => o
    | some ts =>
        if o.tle_updated < ts.updated then
          { o with
             tle_line_0 := ts.tle0,
             tle_line_1 := ts.tle1,
             tle_line_2 := ts.tle2,
             tle_source := ts.tle_source,
             tle_updated := ts.updated }
        else o
  else o

/-- update_future_observations_with_new_tle_sets from network/base/tasks.py.
`fetched` is none when get_tle_sets_by_norad_id_set raises DBConnectionError, in
which case the task returns with no changes; otherwise it maps each NORAD id to
its first fetched TLE set (none when the id is missing or its list is empty). -/
def updateFutureObservationsWithNewTleSets (tNow : Int)
    (fetched : Option (Nat → Option TleSet)) (obsList : List FutureObs) :
    List FutureObs :=
  match fetched with
  | none => obsList
  | some tleSets => obsList.map (updateObsWithTleSet tNow tleSets)

/-- A TLE row as seen by _tle_post_save: primary key, auto_now update timestamp,
owning satellite. -/
structure TleRec where
  id : Nat
  updated : Int
  satellite : Nat
deriving DecidableEq

/-- The Observation fields touched by _tle_post_save in network/base/signals.py:
the owning satellite, the schedule start and the TLE foreign key. -/
structure LinkedObs where
  satellite : Nat
  start : Int
  tle : Option Nat
deriving DecidableEq

/-- The effect of the batch update of _tle_post_save on one observation: every
observation of the TLE's satellite with start strictly beyond now plus the
10-minute buffer is re-linked to the new TLE; there is no comparison of update
timestamps. -/
def relinkObs (tNow : Int) (tle : TleRec) (o : LinkedObs) : LinkedObs :=
  if o.satellite == tle.satellite && decide (tNow + 10 < o.start) then
    { o with tle := some tle.id }
  else o

/-- _tle_post_save from network/base/signals.py: on creation of a TLE, re-link the
future observations of its satellite; on a non-created save, do nothing. -/
def tlePostSave (tNow : Int) (created : Bool) (tle : TleRec) (obsList : List LinkedObs) :
    List LinkedObs :=
  if created then obsList.map (relinkObs tNow tle) else obsList

/-- The DemodData fields (with the denormalized observation and transmitter fields)
read by the sync_to_db task.  `transmitter_sync` is the Transmitter.sync_to_db
flag of the owning observation's transmitter; the task never reads it, the field
is here so that the claim about it can be stated.  `fileOnDisk` is the presence
of the frame's payload_demod file; `isImage` is what frame.is_image() returns
when that file exists (with the file missing, is_image raises instead of
returning, see syncFrameStep). -/
structure Frame where
  id : Nat
  copied_to_db : Bool
  transmitter_mode : String
  transmitter_sync : Bool
  isImage : Bool
  fileOnDisk : Bool
deriving DecidableEq

/-- The queryset filter of sync_to_db (tasks.py lines 240-242): frames not yet
copied whose observation's transmitter mode is not in settings.NOT_SYNCED_MODES.
The transmitter's sync_to_db flag is not part of the filter. -/
def syncSelected (notSyncedModes : List String) (f : Frame) : Bool :=
  !f.copied_to_db && !(notSyncedModes.contains f.transmitter_mode)

/-- Modelled from the spec: sync_demoddata_to_db lives in network/base/utils.py,
which is not under src/; per the spec it pushes one frame to the external
telemetry database and sets copied_to_db true only after a confirmed success
response, while a network failure raises requests.RequestException and leaves the
flag unchanged.  `pushOk` gives each frame id's push outcome. -/
def sync_demoddata_to_db (pushOk : Nat → Bool) (f : Frame) : Except String Frame :=
  if pushOk f.id then .ok { f with copied_to_db := true }
  else .error "requests.exceptions.RequestException"

/-- The body of the sync_to_db loop for one selected frame (tasks.py lines
247-254).  The loop evaluates frame.is_image() BEFORE os.path.isfile: is_image
(models.py lines 616-623) calls open(self.payload_demod.path) outside its try
block, so when the frame's file is missing that open raises an uncaught IOError
(and an empty file field raises ValueError from .path) — neither is caught by the
loop's except requests.exceptions.RequestException, so the exception escapes the
task (modelled as Except.error).  With the file present, an image frame is
skipped with continue; otherwise the frame is pushed, and a RequestException from
the push is caught with continue, leaving the frame for a future task instance.
Frames outside the queryset are untouched. -/
def syncFrameStep (notSyncedModes : List String) (pushOk : Nat → Bool) (f : Frame) :
    Except String Frame :=
  if syncSelected notSyncedModes f then
    if !f.fileOnDisk then .error "IOError: payload_demod file missing (raised by is_image)"
    else if f.isImage then .ok f
    else
      match sync_demoddata_to_db pushOk f with
      | .ok f2 => .ok f2
      | .error _ => .ok f
  else .ok f

/-- The ids of the frames for which sync_to_db makes a push attempt: the selected
non-image frames with their file on disk, up to (and excluding) the first
selected frame whose missing file aborts the task. -/
def syncProcessedIds (notSyncedModes : List String) : List Frame → List Nat
  | [] => []
  | f :: rest =>
      if syncSelected notSyncedModes f then
        if !f.fileOnDisk then []
        else if f.isImage then syncProcessedIds notSyncedModes rest
        else f.id :: syncProcessedIds notSyncedModes rest
      else syncProcessedIds notSyncedModes rest

/-- sync_to_db from network/base/tasks.py (the frame_id=None full run): each
frame's database write commits as the loop reaches it, so the resulting frame
states are the processed prefix; at the first selected frame with a missing file
the uncaught IOError aborts the task, leaving that frame and every later frame
untouched.  Returns the frame states after the run and whether the task ran to
completion (false = aborted). -/
def sync_to_db (notSyncedModes : List String) (pushOk : Nat → Bool) :
    List Frame → List Frame × Bool
  | [] => ([], true)
  | f :: rest =>
      match syncFrameStep notSyncedModes pushOk f with
      | .error _ => (f :: rest, false)
      | .ok f2 =>
          let out := sync_to_db notSyncedModes pushOk rest
          (f2 :: out.1, out.2)

/-- The filter predicates of Station.success_rate, eta-expanded for rewriting. -/
theorem vettedNonTesting_def :
    vettedNonTesting = fun o => !o.testing && o.vetted_status != .unknown := rfl

/-- The generator predicate of Station.success_rate, eta-expanded for rewriting. -/
theorem goodOrBad_def :
    goodOrBad = fun o => o.vetted_status == .good || o.vetted_status == .bad := rfl

/-- The non-testing vetted observations are exactly the good, bad and failed ones. -/
theorem length_filter_vetted (l : List StationObs) :
    (l.filter (fun o => !o.testing && o.vetted_status != .unknown)).length =
      l.countP (fun o => !o.testing && o.vetted_status == .good)
      + l.countP (fun o => !o.testing && o.vetted_status == .bad)
      + l.countP (fun o => !o.testing && o.vetted_status == .failed) := by
  induction l with
  | nil => simp
  | cons h t ih =>
      cases h with
      | mk ht hv =>
          cases ht <;> cases hv <;>
            simp [List.filter_cons, List.countP_cons, ih] <;> omega

/-- The success generator of Station.success_rate counts the good and the bad
observations. -/
theorem length_filter_goodOrBad (l : List StationObs) :
    (l.filter (fun a =>
        (a.vetted_status == .good || a.vetted_status == .bad) &&
          (!a.testing && a.vetted_status != .unknown))).length =
      l.countP (fun o => !o.testing && o.vetted_status == .good)
      + l.countP (fun o => !o.testing && o.vetted_status == .bad) := by
  induction l with
  | nil => simp
  | cons h t ih =>
      cases h with
      | mk ht hv =>
          cases ht <;> cases hv <;>
            simp [List.filter_cons, List.countP_cons, ih] <;> omega

/-- C7: station status derivation is a deterministic pure function of the heartbeat
timestamp, the testing flag and the current time: it yields 0 (Offline) exactly when
last_seen is absent or the heartbeat window has expired (last_seen + window is not
beyond now), otherwise 1 (Testing) when the testing flag is set, otherwise 2
(Online); and the stored status field has no influence, so the same three inputs
always yield the same status. -/
theorem deriveStatus_spec (w t : Int) (st st2 : Station) :
    (deriveStatus w t st =
      (match st.last_seen with
       | none => 0
       | some seen => if seen + w ≤ t then 0 else if st.testing then 1 else 2))
    ∧ (st.last_seen = st2.last_seen → st.testing = st2.testing →
        deriveStatus w t st = deriveStatus w t st2) := by
  constructor
  · rw [deriveStatus, Station.is_offline, Station.is_online]
    cases hls : st.last_seen with
    | none => simp
    | some seen =>
        by_cases hle : seen + w ≤ t
        · have hd : ¬ (seen + w > t) := by omega
          simp [hle, hd]
        · have hd : seen + w > t := by omega
          simp [hle, hd]
  · intro h1 h2
    rw [deriveStatus, deriveStatus, Station.is_offline, Station.is_offline,
        Station.is_online, Station.is_online, h1, h2]

/-- Witness for deriveStatus_spec at the spec's own scenario: last_seen 61 minutes
ago with a 60-minute window derives Offline regardless of the stored status. -/
theorem deriveStatus_spec_witness :
    deriveStatus 60 61 ⟨some 0, false, 2⟩ = 0 ∧
      deriveStatus 60 61 ⟨some 0, false, 2⟩ = deriveStatus 60 61 ⟨some 0, false, 0⟩ := by
  constructor
  · rw [(deriveStatus_spec 60 61 ⟨some 0, false, 2⟩ ⟨some 0, false, 2⟩).1]
    decide
  · exact (deriveStatus_spec 60 61 ⟨some 0, false, 2⟩ ⟨some 0, false, 0⟩).2 rfl rfl

/-- C6: on every station save the post-save hook appends exactly one
StationStatusLog row holding the recomputed status when that recomputation differs
from the stored status, appends nothing when it does not, and on first creation
always appends exactly one row with the saved status. -/
theorem stationPostSave_rows (w t : Int) (created : Bool) (st : Station) :
    (created = false → deriveStatus w t st ≠ st.status →
       (stationPostSave w t created st).2 = [deriveStatus w t st])
    ∧ (created = false → deriveStatus w t st = st.status →
       (stationPostSave w t created st).2 = [])
    ∧ (created = true → (stationPostSave w t created st).2 = [st.status]) := by
  refine ⟨?_, ?_, ?_⟩
  · intro hc hne
    subst hc
    simp [stationPostSave, hne]
  · intro hc heq
    subst hc
    simp [stationPostSave, heq]
  · intro hc
    subst hc
    simp [stationPostSave]

/-- Witness for stationPostSave_rows at the spec's scenario: a station last seen 61
minutes ago (60-minute window) with stored status Online gets exactly one new log
row with status 0, and a creation save appends exactly one row with the saved
status. -/
theorem stationPostSave_rows_witness :
    (stationPostSave 60 61 false ⟨some 0, false, 2⟩).2 = [0] ∧
      (stationPostSave 60 61 true ⟨some 0, false, 2⟩).2 = [2] := by
  constructor
  · have h := (stationPostSave_rows 60 61 false ⟨some 0, false, 2⟩).1 rfl (by decide)
    rw [h]
    decide
  · exact (stationPostSave_rows 60 61 true ⟨some 0, false, 2⟩).2.2 rfl

/-- A station's observation list with one good and two bad non-testing vetted
observations: the spec formula round(100 * good / (good + bad)) gives 33, the code
gives 100. -/
def c8ObsList : List StationObs :=
  [⟨false, .good⟩, ⟨false, .bad⟩, ⟨false, .bad⟩]

/-- C8 counterexample: for one good and two bad non-testing vetted observations the
code computes int(100 * 3 / 3) = 100, because its numerator counts the good AND the
bad observations, while the spec formula round(100 * good / (good + bad)) gives 33;
so Station.success_rate is not the claimed round(100 * good / (good + bad)). -/
theorem success_rate_counterexample :
    Station.success_rate c8ObsList = some 100 ∧
      specSuccessRate c8ObsList = some 33 ∧
      Station.success_rate c8ObsList ≠ specSuccessRate c8ObsList := by
  refine ⟨by decide, by decide, by decide⟩

/-- C8 amended: Station.success_rate returns int(100 * (s / c)) evaluated in
IEEE binary64 arithmetic (a truncation of the float product — not a rounding of
the exact ratio, and occasionally one below its exact floor), where the numerator
s counts the good AND the bad non-testing observations and the denominator c
additionally includes the failed ones; none for a station without vetted
non-testing observations. -/
theorem success_rate_code_formula (l : List StationObs) :
    Station.success_rate l =
      (if l.countP (fun o => !o.testing && o.vetted_status == .good)
          + l.countP (fun o => !o.testing && o.vetted_status == .bad)
          + l.countP (fun o => !o.testing && o.vetted_status == .failed) = 0 then none
       else some (pyIntRate
                    (l.countP (fun o => !o.testing && o.vetted_status == .good)
                      + l.countP (fun o => !o.testing && o.vetted_status == .bad))
                    (l.countP (fun o => !o.testing && o.vetted_status == .good)
                      + l.countP (fun o => !o.testing && o.vetted_status == .bad)
                      + l.countP (fun o => !o.testing && o.vetted_status == .failed)))) := by
  rw [Station.success_rate]
  simp only [vettedNonTesting_def, goodOrBad_def, List.filter_filter]
  rw [length_filter_vetted, length_filter_goodOrBad]

/-- The float evaluation in Station.success_rate is not the exact floor: two
binary64 roundings put int(100 * (29 / 100)) at 28, one below floor(100 * 29 / 100)
(CPython: 100 * (29 / 100) is 28.999999999999996). -/
theorem pyIntRate_floor_divergence :
    pyIntRate 29 100 = 28 ∧ 100 * 29 / 100 = 29 ∧ pyIntRate 57 100 = 56 := by
  exact ⟨by decide, by decide, by decide⟩

/-- The audio block returns the observation unchanged or with the payload deleted. -/
theorem audioStep_cases (p f : Bool) (a : AudioCheck) (obs : Observation) :
    (audioStep p f a obs).1 = obs ∨ (audioStep p f a obs).1 = { obs with payload := none } := by
  rw [audioStep.eq_def]
  split
  · cases a <;> simp
  · simp

/-- The audio block touches only the payload field. -/
theorem audioStep_preserves (p f : Bool) (a : AudioCheck) (obs : Observation) :
    (audioStep p f a obs).1.archived = obs.archived
    ∧ (audioStep p f a obs).1.ground_station = obs.ground_station
    ∧ (audioStep p f a obs).1.testing = obs.testing
    ∧ (audioStep p f a obs).1.has_demoddata = obs.has_demoddata
    ∧ (audioStep p f a obs).1.transmitter_mode = obs.transmitter_mode
    ∧ (audioStep p f a obs).1.vetted_status = obs.vetted_status
    ∧ (audioStep p f a obs).1.vetted_datetime = obs.vetted_datetime := by
  rcases audioStep_cases p f a obs with h | h <;> rw [h] <;>
    exact ⟨rfl, rfl, rfl, rfl, rfl, rfl, rfl⟩

/-- The auto-vet block either fires, setting the two vetting fields, or is the
identity, according to its guard. -/
theorem vetStep_cases (t : Int) (o : Observation) :
    ((o.has_demoddata && o.vetted_status == .unknown && o.transmitter_mode != "CW") = true
       ∧ vetStep t o = { o with vetted_status := .good, vetted_datetime := some t })
    ∨ ((o.has_demoddata && o.vetted_status == .unknown && o.transmitter_mode != "CW") = false
       ∧ vetStep t o = o) := by
  by_cases h : (o.has_demoddata && o.vetted_status == .unknown && o.transmitter_mode != "CW") = true
  · exact Or.inl ⟨h, by rw [vetStep, if_pos h]⟩
  · refine Or.inr ⟨by simpa using h, ?_⟩
    rw [vetStep, if_neg h]

/-- Shape of a completing hook run: the saved observation is the auto-vet step
applied to an intermediate observation whose vetting, demoddata and mode fields
are those of the input. -/
theorem observationPostSave_shape (created p f : Bool) (a : AudioCheck) (t : Int)
    (obs : Observation) (hgs : created = true → obs.ground_station.isSome = true) :
    ∃ b e, (observationPostSave created p f a t obs).toOption = some (vetStep t b, e)
      ∧ b.vetted_status = obs.vetted_status
      ∧ b.vetted_datetime = obs.vetted_datetime
      ∧ b.has_demoddata = obs.has_demoddata
      ∧ b.transmitter_mode = obs.transmitter_mode := by
  rcases hab : audioStep p f a obs with ⟨b0, e0⟩
  have hpres := audioStep_preserves p f a obs
  rw [hab] at hpres
  cases created with
  | false =>
      refine ⟨b0, e0, ?_, hpres.2.2.2.2.2.1, hpres.2.2.2.2.2.2, hpres.2.2.2.1,
        hpres.2.2.2.2.1⟩
      simp only [observationPostSave, hab]
      rfl
  | true =>
      obtain ⟨g, hg⟩ := Option.isSome_iff_exists.mp (hgs rfl)
      have hg2 : b0.ground_station = some g := by
        have h1 : b0.ground_station = obs.ground_station := hpres.2.1
        rw [h1, hg]
      cases g with
      | false =>
          refine ⟨b0, e0, ?_, hpres.2.2.2.2.2.1, hpres.2.2.2.2.2.2, hpres.2.2.2.1,
            hpres.2.2.2.2.1⟩
          simp only [observationPostSave, hab, hg2]
          rfl
      | true =>
          refine ⟨{ b0 with testing := true }, e0, ?_, hpres.2.2.2.2.2.1,
            hpres.2.2.2.2.2.2, hpres.2.2.2.1, hpres.2.2.2.2.1⟩
          simp only [observationPostSave, hab, hg2]
          rfl

/-- A created observation with a NULL ground station makes the hook raise. -/
theorem observationPostSave_none_gs (p f : Bool) (a : AudioCheck) (t : Int)
    (obs : Observation) (hg : obs.ground_station = none) :
    (observationPostSave true p f a t obs).toOption = none := by
  rcases hab : audioStep p f a obs with ⟨b0, e0⟩
  have hpres := audioStep_preserves p f a obs
  rw [hab] at hpres
  have hb : b0.ground_station = none := by
    have h1 : b0.ground_station = obs.ground_station := hpres.2.1
    rw [h1, hg]
  simp only [observationPostSave, hab, hb]
  rfl

/-- C1: for an observation with at least one DemodData frame, vetted_status
unknown and a transmitter mode that is not the excluded CW mode, one completing
run of the observation post-save hook sets vetted_status to good and stamps
vetted_datetime with the current time; when the mode is the excluded CW mode the
hook leaves both vetting fields unchanged. -/
theorem observationPostSave_autovet (created production fod : Bool) (audio : AudioCheck)
    (t : Int) (obs : Observation)
    (hgs : created = true → obs.ground_station.isSome = true)
    (hd : obs.has_demoddata = true) (hu : obs.vetted_status = .unknown) :
    (obs.transmitter_mode ≠ "CW" →
       hookVet (observationPostSave created production fod audio t obs) =
         some (.good, some t))
    ∧ (obs.transmitter_mode = "CW" →
       hookVet (observationPostSave created production fod audio t obs) =
         some (obs.vetted_status, obs.vetted_datetime)) := by
  obtain ⟨b, e, hsome, hb1, hb2, hb3, hb4⟩ :=
    observationPostSave_shape created production fod audio t obs hgs
  constructor
  · intro hmode
    have hguard : (b.has_demoddata && b.vetted_status == .unknown
        && b.transmitter_mode != "CW") = true := by
      rw [hb3, hb1, hb4, hd, hu]
      simp [hmode]
    rcases vetStep_cases t b with ⟨_, hv⟩ | ⟨hfalse, _⟩
    · rw [hookVet, hsome, Option.map_some', hv]
    · rw [hguard] at hfalse
      exact Bool.noConfusion hfalse
  · intro hmode
    have hguard : (b.has_demoddata && b.vetted_status == .unknown
        && b.transmitter_mode != "CW") = false := by
      rw [hb4, hmode]
      simp
    rcases vetStep_cases t b with ⟨htrue, _⟩ | ⟨_, hv⟩
    · rw [hguard] at htrue
      exact Bool.noConfusion htrue
    · rw [hookVet, hsome, Option.map_some', hv, hb1, hb2]

/-- A demodulated non-CW unknown observation for the auto-vet witness. -/
def c1Obs : Observation :=
  ⟨some "a.ogg", false, some false, false, true, "BPSK", .unknown, none⟩

/-- Witness for observationPostSave_autovet: a freshly created observation with
demod data, unknown status and BPSK mode is auto-vetted good with the time stamp. -/
theorem observationPostSave_autovet_witness :
    hookVet (observationPostSave true false false .valid 42 c1Obs) =
      some (.good, some 42) := by
  have h := observationPostSave_autovet true false false .valid 42 c1Obs
    (fun _ => rfl) rfl rfl
  exact h.1 (by decide)

/-- C2: the auto-vet step is idempotent.  First, a completing hook run on an
observation that is already vetted (vetted_status not unknown) never changes
vetted_status and never re-stamps vetted_datetime.  Second, re-running the hook
(as a non-created save) on the output of any completing run leaves both vetting
fields exactly as the first run left them, so two runs yield the same vetting
state as one. -/
theorem observationPostSave_vet_idempotent (created production production2 fod fod2 : Bool)
    (audio audio2 : AudioCheck) (t t2 : Int) (obs o1 : Observation) (e1 : Bool)
    (h1 : (observationPostSave created production fod audio t obs).toOption = some (o1, e1)) :
    (obs.vetted_status ≠ .unknown →
       o1.vetted_status = obs.vetted_status ∧ o1.vetted_datetime = obs.vetted_datetime)
    ∧ hookVet (observationPostSave false production2 fod2 audio2 t2 o1) =
        some (o1.vetted_status, o1.vetted_datetime) := by
  have hgs : created = true → obs.ground_station.isSome = true := by
    intro hc
    subst hc
    cases hq : obs.ground_station with
    | none =>
        have hnone := observationPostSave_none_gs production fod audio t obs hq
        rw [hnone] at h1
        exact Option.noConfusion h1
    | some g => rfl
  obtain ⟨b, e, hsome, hb1, hb2, hb3, hb4⟩ :=
    observationPostSave_shape created production fod audio t obs hgs
  have hpair : (vetStep t b, e) = (o1, e1) := by
    rw [hsome] at h1
    exact Option.some.inj h1
  have ho1 : vetStep t b = o1 := congrArg Prod.fst hpair
  constructor
  · intro hnu
    rcases vetStep_cases t b with ⟨htrue, _⟩ | ⟨_, hid⟩
    · exfalso
      apply hnu
      simp only [Bool.and_eq_true] at htrue
      have hbv : b.vetted_status = VetStatus.unknown := of_decide_eq_true htrue.1.2
      rw [← hb1, hbv]
    · constructor
      · rw [← ho1, hid, hb1]
      · rw [← ho1, hid, hb2]
  · obtain ⟨b2, e2, hsome2, hc1, hc2, hc3, hc4⟩ :=
      observationPostSave_shape false production2 fod2 audio2 t2 o1
        (fun h => Bool.noConfusion h)
    rw [hookVet, hsome2, Option.map_some']
    rcases vetStep_cases t2 b2 with ⟨htrue2, _⟩ | ⟨_, hid2⟩
    · exfalso
      simp only [Bool.and_eq_true] at htrue2
      have ho1u : o1.vetted_status = VetStatus.unknown := by
        rw [← hc1]
        exact of_decide_eq_true htrue2.1.2
      have h5 : o1.has_demoddata = true := by rw [← hc3]; exact htrue2.1.1
      have h6 : (o1.transmitter_mode != "CW") = true := by rw [← hc4]; exact htrue2.2
      rcases vetStep_cases t b with ⟨_, hv1⟩ | ⟨hfalse1, hid1⟩
      · have hgood : o1.vetted_status = VetStatus.good := by rw [← ho1, hv1]
        rw [hgood] at ho1u
        exact VetStatus.noConfusion ho1u
      · have hob : o1 = b := by rw [← ho1, hid1]
        rw [hob] at h5 h6 ho1u
        rw [h5, ho1u, h6] at hfalse1
        simp at hfalse1
    · rw [hid2, hc1, hc2]

/-- An already-vetted CW observation for the idempotence witness. -/
def c2Obs : Observation :=
  ⟨none, false, some false, false, false, "CW", .good, some 5⟩

/-- Witness for observationPostSave_vet_idempotent: a hook run on an observation
vetted good keeps status good and the original stamp, and a second run still
yields the same vetting fields. -/
theorem observationPostSave_vet_idempotent_witness :
    (c2Obs.vetted_status = c2Obs.vetted_status ∧
       c2Obs.vetted_datetime = c2Obs.vetted_datetime) ∧
      hookVet (observationPostSave false true true .valid 9 c2Obs) =
        some (.good, some 5) := by
  have h := observationPostSave_vet_idempotent false false true false true
    .valid .valid 7 9 c2Obs c2Obs false (by decide)
  exact ⟨h.1 (by decide), h.2⟩

/-- C10: the observation post-save hook dereferences ground_station.testing for
every newly created observation although the foreign key is nullable: a created
observation with a NULL ground station makes the hook raise AttributeError
instead of completing, while it completes for every created observation with a
ground station and for every non-created save. -/
theorem observationPostSave_null_station (production fod : Bool) (audio : AudioCheck)
    (t : Int) (obs : Observation) :
    (obs.ground_station = none →
       (observationPostSave true production fod audio t obs).toOption = none)
    ∧ (obs.ground_station.isSome = true →
       (observationPostSave true production fod audio t obs).toOption.isSome = true)
    ∧ ((observationPostSave false production fod audio t obs).toOption.isSome = true) := by
  refine ⟨fun hg => observationPostSave_none_gs production fod audio t obs hg, ?_, ?_⟩
  · intro hs
    obtain ⟨b, e, hsome, _⟩ :=
      observationPostSave_shape true production fod audio t obs (fun _ => hs)
    rw [hsome]
    rfl
  · obtain ⟨b, e, hsome, _⟩ :=
      observationPostSave_shape false production fod audio t obs
        (fun h => Bool.noConfusion h)
    rw [hsome]
    rfl

/-- A created observation with a NULL ground station for the safety witness. -/
def c10Obs : Observation :=
  ⟨none, false, none, false, false, "", .unknown, none⟩

/-- Witness for observationPostSave_null_station: the hook raises on a created
observation without a ground station and completes once one is linked. -/
theorem observationPostSave_null_station_witness :
    (observationPostSave true false false .valid 0 c10Obs).toOption = none ∧
      (observationPostSave true false false .valid 0
        { c10Obs with ground_station := some true }).toOption.isSome = true := by
  have h := observationPostSave_null_station false false .valid 0 c10Obs
  have h2 := observationPostSave_null_station false false .valid 0
    { c10Obs with ground_station := some true }
  exact ⟨h.1 rfl, h2.2.1 rfl⟩

/-- C4: for an unarchived observation with a local payload, a transport or
authentication failure of the upload returns with the record entirely unchanged
(archived stays false, no identifier or URL recorded, payload retained), a
response with a status code other than 200 likewise changes nothing, and a
verified 200 response sets archived, records the bucketed identifier and URL, and
deletes the local payload in the same save. -/
theorem archive_audio_success_failure (environment archiveUrl payloadName : String)
    (obs : ArchObs) (hp : obs.payload = some payloadName) (_ha : obs.archived = false) :
    ((archive_audio environment archiveUrl .requestError obs).toOption = some (obs, true))
    ∧ ((archive_audio environment archiveUrl (.response 200) obs).toOption =
        some ({ obs with
                 archived := true,
                 archive_url := some (archiveUrl ++ itemId environment obs.id ++ "/"
                                       ++ fileNameOf payloadName),
                 archive_identifier := itemId environment obs.id,
                 payload := none }, true))
    ∧ (∀ s, s ≠ 200 →
        (archive_audio environment archiveUrl (.response s) obs).toOption =
          some (obs, true)) := by
  refine ⟨?_, ?_, ?_⟩
  · simp only [archive_audio, hp]
    rfl
  · simp only [archive_audio, hp]
    rfl
  · intro s hs
    have hbeq : (s == 200) = false := by simpa using hs
    simp only [archive_audio, hp, hbeq]
    rfl

/-- An unarchived observation in the second thousand-bucket for the archive
witness. -/
def c4Obs : ArchObs :=
  ⟨1500, false, "", none, some "data_obs/1500/audio.ogg"⟩

/-- Witness for archive_audio_success_failure at observation 1500: failure leaves
the record unchanged, success writes the bucketed identifier 1001-2000 and the
archive URL and clears the payload. -/
theorem archive_audio_success_failure_witness :
    ((archive_audio "production" "https://archive.org/download/" .requestError
        c4Obs).toOption = some (c4Obs, true))
    ∧ ((archive_audio "production" "https://archive.org/download/" (.response 200)
        c4Obs).toOption =
      some (⟨1500, true, "satnogs-observations-000001001-000002000",
        some "https://archive.org/download/satnogs-observations-000001001-000002000/audio.ogg",
        none⟩, true))
    ∧ ((archive_audio "production" "https://archive.org/download/" (.response 503)
        c4Obs).toOption = some (c4Obs, true)) := by
  have h := archive_audio_success_failure "production" "https://archive.org/download/"
    "data_obs/1500/audio.ogg" c4Obs rfl rfl
  refine ⟨h.1, ?_, h.2.2 503 (by decide)⟩
  rw [h.2.1]
  decide

/-- An already-archived observation that still holds a local payload (the
crash-before-save scenario the spec describes for retries). -/
def c3Obs : ArchObs :=
  ⟨5, true, "satnogs-observations-000000001-000001000", some "u", some "data_obs/5/x.ogg"⟩

/-- C3 counterexample: invoking archive_audio on an observation whose archived
flag is already true does not detect the archived state and skip: the upload is
attempted again (on a failure outcome as well), and on a 200 response the record
is rewritten rather than left unchanged, so the archival task itself is not
idempotent under retry. -/
theorem archive_audio_retry_counterexample :
    ((archive_audio "production" "https://archive.org/download/" (.response 200)
        c3Obs).toOption.map (fun out => out.2) = some true)
    ∧ ((archive_audio "production" "https://archive.org/download/" (.response 200)
        c3Obs).toOption ≠ some (c3Obs, false))
    ∧ ((archive_audio "production" "https://archive.org/download/" (.response 200)
        c3Obs).toOption.map (fun out => out.1) ≠ some c3Obs)
    ∧ ((archive_audio "production" "https://archive.org/download/" .requestError
        c3Obs).toOption.map (fun out => out.2) = some true) := by
  exact ⟨by decide, by decide, by decide, by decide⟩

/-- C3 amended: archive_audio itself performs no already-archived check — whenever
a payload is present it attempts the upload regardless of the archived flag, and
with no payload (the state a completed archival leaves behind) it raises instead
of skipping.  Skipping archived observations is enforced only at the call sites:
the observation post-save hook never enqueues archive_audio for an observation
whose archived flag is true. -/
theorem archive_audio_caller_guard (environment archiveUrl payloadName : String)
    (obs : ArchObs) (res : UploadResult) (created production fod : Bool)
    (audio : AudioCheck) (t : Int) (hobs : Observation) :
    (obs.payload = some payloadName →
       (archive_audio environment archiveUrl res obs).toOption.map (fun out => out.2) =
         some true)
    ∧ (obs.payload = none →
       (archive_audio environment archiveUrl res obs).toOption = none)
    ∧ (hobs.archived = true →
       ∀ o2 e2, (observationPostSave created production fod audio t hobs).toOption =
           some (o2, e2) → e2 = false) := by
  refine ⟨?_, ?_, ?_⟩
  · intro hp
    cases res with
    | requestError =>
        simp only [archive_audio, hp]
        rfl
    | response s =>
        simp only [archive_audio, hp]
        split <;> rfl
  · intro hp
    cases res with
    | requestError =>
        simp only [archive_audio, hp]
        rfl
    | response s =>
        simp only [archive_audio, hp]
        rfl
  · intro harch o2 e2 hok
    rcases hab : audioStep production fod audio hobs with ⟨b0, e0⟩
    have he0 : e0 = false := by
      have h2 : (audioStep production fod audio hobs).2 = false := by
        simp [audioStep, harch]
      rw [hab] at h2
      exact h2
    cases created with
    | false =>
        have hval : (observationPostSave false production fod audio t hobs).toOption
            = some (vetStep t b0, e0) := by
          simp only [observationPostSave, hab]
          rfl
        rw [hval] at hok
        have h3 : e0 = e2 := congrArg Prod.snd (Option.some.inj hok)
        rw [← h3]
        exact he0
    | true =>
        cases hbg : b0.ground_station with
        | none =>
            have hval : (observationPostSave true production fod audio t hobs).toOption
                = none := by
              simp only [observationPostSave, hab, hbg]
              rfl
            rw [hval] at hok
            exact Option.noConfusion hok
        | some g =>
            cases g with
            | false =>
                have hval : (observationPostSave true production fod audio t hobs).toOption
                    = some (vetStep t b0, e0) := by
                  simp only [observationPostSave, hab, hbg]
                  rfl
                rw [hval] at hok
                have h3 : e0 = e2 := congrArg Prod.snd (Option.some.inj hok)
                rw [← h3]
                exact he0
            | true =>
                have hval : (observationPostSave true production fod audio t hobs).toOption
                    = some (vetStep t { b0 with testing := true }, e0) := by
                  simp only [observationPostSave, hab, hbg]
                  rfl
                rw [hval] at hok
                have h3 : e0 = e2 := congrArg Prod.snd (Option.some.inj hok)
                rw [← h3]
                exact he0

/-- An archived observation as the post-save hook sees it, for the caller-guard
witness. -/
def c3HookObs : Observation :=
  ⟨some "x.ogg", true, some false, false, false, "FSK", .good, some 1⟩

/-- Witness for archive_audio_caller_guard: with a payload present the upload is
attempted even though c3Obs is archived, with the payload gone the task raises,
and the hook run on an archived observation does not enqueue archival. -/
theorem archive_audio_caller_guard_witness :
    ((archive_audio "production" "https://archive.org/download/" .requestError
        c3Obs).toOption.map (fun out => out.2) = some true)
    ∧ ((archive_audio "production" "https://archive.org/download/" .requestError
        { c3Obs with payload := none }).toOption = none)
    ∧ ((observationPostSave false true true .valid 3 c3HookObs).toOption =
        some (c3HookObs, false)) := by
  have h1 := archive_audio_caller_guard "production" "https://archive.org/download/"
    "data_obs/5/x.ogg" c3Obs .requestError false true true .valid 3 c3HookObs
  have h2 := archive_audio_caller_guard "production" "https://archive.org/download/"
    "data_obs/5/x.ogg" { c3Obs with payload := none } .requestError false true true
    .valid 3 c3HookObs
  refine ⟨h1.1 rfl, h2.2.1 rfl, ?_⟩
  have hrun : (observationPostSave false true true .valid 3 c3HookObs).toOption =
      some (c3HookObs, false) := by decide
  have := h1.2.2 rfl c3HookObs false hrun
  exact hrun

/-- The per-observation effect of the periodic TLE refresh is either the identity
or, exactly when the observation starts beyond the buffer and the fetched set is
strictly newer, the rewrite of the five TLE fields. -/
theorem updateObsWithTleSet_spec (tNow : Int) (tleSets : Nat → Option TleSet)
    (o : FutureObs) :
    updateObsWithTleSet tNow tleSets o = o
    ∨ (tNow + 10 < o.start ∧ ∃ ts, tleSets o.norad_cat_id = some ts
        ∧ o.tle_updated < ts.updated
        ∧ updateObsWithTleSet tNow tleSets o = { o with
            tle_line_0 := ts.tle0, tle_line_1 := ts.tle1, tle_line_2 := ts.tle2,
            tle_source := ts.tle_source, tle_updated := ts.updated }) := by
  unfold updateObsWithTleSet
  by_cases hstart : tNow + 10 < o.start
  · rw [if_pos hstart]
    cases hts : tleSets o.norad_cat_id with
    | none => exact Or.inl rfl
    | some ts =>
        dsimp only
        by_cases hupd : o.tle_updated < ts.updated
        · rw [if_pos hupd]
          exact Or.inr ⟨hstart, ts, rfl, hupd, rfl⟩
        · rw [if_neg hupd]
          exact Or.inl rfl
  · rw [if_neg hstart]
    exact Or.inl rfl

/-- The TLE created in the hook scenario: same update timestamp as the one already
linked, owned by satellite 7. -/
def c5NewTle : TleRec := ⟨2, 100, 7⟩

/-- The TLE already linked on the observation of the counterexample. -/
def c5LinkedTle : TleRec := ⟨1, 100, 7⟩

/-- A future observation (start far beyond the buffer) linked to c5LinkedTle. -/
def c5LinkedObs : LinkedObs := ⟨7, 1000, some 1⟩

/-- C5 counterexample: the TLE-creation hook re-links an eligible future
observation to the new TLE even though the new TLE's update timestamp is not
strictly newer than that of the TLE currently linked on the observation — the
hook performs no timestamp comparison at all, so the claim that both propagation
paths update only on a strictly newer TLE fails. -/
theorem tlePostSave_relink_counterexample :
    c5LinkedObs.tle = some c5LinkedTle.id
    ∧ ¬ c5LinkedTle.updated < c5NewTle.updated
    ∧ tlePostSave 0 true c5NewTle [c5LinkedObs] =
        [{ c5LinkedObs with tle := some c5NewTle.id }]
    ∧ ({ c5LinkedObs with tle := some c5NewTle.id } : LinkedObs) ≠ c5LinkedObs := by
  exact ⟨rfl, by decide, by decide, by decide⟩

/-- C5 amended: neither TLE-propagation path ever mutates an observation whose
start is within the 10-minute buffer or in the past, and only TLE fields are ever
touched; the periodic refresh task updates an eligible observation exactly when
the fetched set's update timestamp is strictly newer than the observation's
current one; the TLE-creation hook, however, re-links every eligible future
observation of the TLE's satellite unconditionally, with no timestamp
comparison. -/
theorem tle_propagation_amended (tNow : Int) (tleSets : Nat → Option TleSet)
    (l : List FutureObs) (o : FutureObs) (tle : TleRec) (lo : LinkedObs)
    (ll : List LinkedObs) :
    (updateFutureObservationsWithNewTleSets tNow (some tleSets) l =
        l.map (updateObsWithTleSet tNow tleSets))
    ∧ (updateFutureObservationsWithNewTleSets tNow none l = l)
    ∧ (o.start ≤ tNow + 10 → updateObsWithTleSet tNow tleSets o = o)
    ∧ (∀ ts, tleSets o.norad_cat_id = some ts → ts.updated ≤ o.tle_updated →
        updateObsWithTleSet tNow tleSets o = o)
    ∧ (updateObsWithTleSet tNow tleSets o ≠ o →
        tNow + 10 < o.start ∧ ∃ ts, tleSets o.norad_cat_id = some ts
          ∧ o.tle_updated < ts.updated
          ∧ updateObsWithTleSet tNow tleSets o = { o with
              tle_line_0 := ts.tle0, tle_line_1 := ts.tle1, tle_line_2 := ts.tle2,
              tle_source := ts.tle_source, tle_updated := ts.updated })
    ∧ (tlePostSave tNow true tle ll = ll.map (relinkObs tNow tle))
    ∧ (tlePostSave tNow false tle ll = ll)
    ∧ (lo.start ≤ tNow + 10 → relinkObs tNow tle lo = lo)
    ∧ (lo.satellite ≠ tle.satellite → relinkObs tNow tle lo = lo)
    ∧ (lo.satellite = tle.satellite → tNow + 10 < lo.start →
        relinkObs tNow tle lo = { lo with tle := some tle.id })
    ∧ ((relinkObs tNow tle lo).satellite = lo.satellite
        ∧ (relinkObs tNow tle lo).start = lo.start) := by
  refine ⟨rfl, rfl, ?_, ?_, ?_, rfl, rfl, ?_, ?_, ?_, ?_⟩
  · intro h
    unfold updateObsWithTleSet
    rw [if_neg (by omega)]
  · intro ts hts hle
    unfold updateObsWithTleSet
    by_cases hstart : tNow + 10 < o.start
    · rw [if_pos hstart, hts]
      dsimp only
      rw [if_neg (by omega)]
    · rw [if_neg hstart]
  · intro hne
    rcases updateObsWithTleSet_spec tNow tleSets o with h | h
    · exact absurd h hne
    · exact h
  · intro h
    unfold relinkObs
    have hd : decide (tNow + 10 < lo.start) = false := decide_eq_false (by omega)
    rw [hd]
    simp
  · intro hne
    unfold relinkObs
    have hb : (lo.satellite == tle.satellite) = false := by simpa using hne
    rw [hb]
    simp
  · intro he hs
    unfold relinkObs
    have hb : (lo.satellite == tle.satellite) = true := by simpa using he
    have hd : decide (tNow + 10 < lo.start) = true := decide_eq_true hs
    rw [hb, hd]
    rfl
  · refine ⟨?_, ?_⟩ <;>
      · unfold relinkObs
        split <;> rfl

/-- A future observation of satellite 7 with an old TLE timestamp. -/
def c5FutureObs : FutureObs := ⟨7, 1000, "", "", "", "old", 50⟩

/-- An already-started observation of satellite 7 (start before the buffer). -/
def c5PastObs : FutureObs := ⟨7, 5, "", "", "", "old", 50⟩

/-- A fetched TLE map holding a newer set for satellite 7. -/
def c5Sets : Nat → Option TleSet :=
  fun n => if n == 7 then some ⟨"A", "B", "C", "src", 60⟩ else none

/-- Witness for tle_propagation_amended: the task leaves an already-started
observation untouched and leaves an eligible one untouched when the fetched set
is not strictly newer; the hook relinks an eligible future observation and skips
one inside the buffer. -/
theorem tle_propagation_amended_witness :
    updateObsWithTleSet 0 c5Sets c5PastObs = c5PastObs
    ∧ updateObsWithTleSet 0 (fun _ => some ⟨"A", "B", "C", "s", 40⟩) c5FutureObs =
        c5FutureObs
    ∧ relinkObs 0 c5NewTle ⟨7, 3, some 1⟩ = ⟨7, 3, some 1⟩
    ∧ relinkObs 0 c5NewTle c5LinkedObs = { c5LinkedObs with tle := some 2 } := by
  obtain ⟨_, _, h3, _, _, _, _, h8, _, _, _⟩ :=
    tle_propagation_amended 0 c5Sets [] c5PastObs c5NewTle ⟨7, 3, some 1⟩ []
  obtain ⟨_, _, _, h4, _, _, _, _, _, h10, _⟩ :=
    tle_propagation_amended 0 (fun _ => some ⟨"A", "B", "C", "s", 40⟩) [] c5FutureObs
      c5NewTle c5LinkedObs []
  exact ⟨h3 (by decide), h4 ⟨"A", "B", "C", "s", 40⟩ rfl (by decide), h8 (by decide),
    h10 rfl (by decide)⟩

/-- A frame whose transmitter is NOT flagged for external sync, not yet copied,
with a non-excluded mode, not an image, file on disk. -/
def c9Frame : Frame := ⟨1, false, "FSK", false, false, true⟩

/-- C9 counterexample: sync_to_db pushes a frame whose transmitter is not flagged
for external sync (its queryset never consults the Transmitter.sync_to_db flag),
so the set of processed frames is not restricted to sync-flagged transmitters as
the claim states. -/
theorem sync_to_db_flag_counterexample :
    c9Frame.transmitter_sync = false
    ∧ syncProcessedIds ["CW"] [c9Frame] = [1]
    ∧ sync_to_db ["CW"] (fun _ => true) [c9Frame] =
        ([{ c9Frame with copied_to_db := true }], true) := by
  exact ⟨rfl, by decide, by decide⟩

/-- C9 amended: sync_to_db attempts a push exactly for the non-image frames with
their file on disk, copied_to_db false and a mode not on the exclusion list — the
transmitter's sync flag plays no role in the selection.  A RequestException from
one frame's push is caught: the frame stays entirely unchanged (copied_to_db
false, hence selected again on the next run) and the remaining frames are still
processed.  A selected frame whose payload file is missing, however, raises an
uncaught IOError from is_image, aborting the whole task: that frame and every
later frame are left untouched and nothing further is pushed. -/
theorem sync_to_db_amended (nsm : List String) (pushOk : Nat → Bool) (f : Frame)
    (b : Bool) (l : List Frame) :
    (syncSelected nsm { f with transmitter_sync := b } = syncSelected nsm f)
    ∧ (syncSelected nsm f = true → f.fileOnDisk = true → f.isImage = false →
        pushOk f.id = true →
        syncFrameStep nsm pushOk f = .ok { f with copied_to_db := true })
    ∧ (syncSelected nsm f = true → f.fileOnDisk = true → f.isImage = false →
        pushOk f.id = false → syncFrameStep nsm pushOk f = .ok f)
    ∧ (syncSelected nsm f = false →
        syncFrameStep nsm pushOk f = .ok f
          ∧ syncProcessedIds nsm (f :: l) = syncProcessedIds nsm l)
    ∧ (f.fileOnDisk = true → f.isImage = true →
        syncFrameStep nsm pushOk f = .ok f
          ∧ syncProcessedIds nsm (f :: l) = syncProcessedIds nsm l)
    ∧ (syncSelected nsm f = true → f.fileOnDisk = true → f.isImage = false →
        syncProcessedIds nsm (f :: l) = f.id :: syncProcessedIds nsm l)
    ∧ (syncSelected nsm f = true → f.fileOnDisk = false →
        (∃ e, syncFrameStep nsm pushOk f = .error e)
          ∧ sync_to_db nsm pushOk (f :: l) = (f :: l, false)
          ∧ syncProcessedIds nsm (f :: l) = [])
    ∧ (∀ f2, syncFrameStep nsm pushOk f = .ok f2 →
        sync_to_db nsm pushOk (f :: l) =
          (f2 :: (sync_to_db nsm pushOk l).1, (sync_to_db nsm pushOk l).2)) := by
  refine ⟨rfl, ?_, ?_, ?_, ?_, ?_, ?_, ?_⟩
  · intro hs hf hi hp
    simp [syncFrameStep, sync_demoddata_to_db, hs, hf, hi, hp]
  · intro hs hf hi hp
    simp [syncFrameStep, sync_demoddata_to_db, hs, hf, hi, hp]
  · intro hs
    exact ⟨by simp [syncFrameStep, hs], by simp [syncProcessedIds, hs]⟩
  · intro hf hi
    constructor
    · unfold syncFrameStep
      split
      · simp [hf, hi]
      · rfl
    · simp [syncProcessedIds, hf, hi]
  · intro hs hf hi
    simp [syncProcessedIds, hs, hf, hi]
  · intro hs hf
    have hstep : syncFrameStep nsm pushOk f =
        .error "IOError: payload_demod file missing (raised by is_image)" := by
      simp [syncFrameStep, hs, hf]
    refine ⟨⟨_, hstep⟩, ?_, ?_⟩
    · simp [sync_to_db, hstep]
    · simp [syncProcessedIds, hs, hf]
  · intro f2 h2
    simp [sync_to_db, h2]

/-- Witness for sync_to_db_amended: a failed push leaves the frame unchanged, a
successful one marks it copied, and a selected frame with a missing file aborts
the run leaving every frame untouched. -/
theorem sync_to_db_amended_witness :
    syncFrameStep ["CW"] (fun _ => false) c9Frame = .ok c9Frame
    ∧ syncFrameStep ["CW"] (fun _ => true) c9Frame =
        .ok { c9Frame with copied_to_db := true }
    ∧ sync_to_db ["CW"] (fun _ => true)
        [{ c9Frame with fileOnDisk := false }, c9Frame] =
        ([{ c9Frame with fileOnDisk := false }, c9Frame], false) := by
  have h1 := sync_to_db_amended ["CW"] (fun _ => false) c9Frame false []
  have h2 := sync_to_db_amended ["CW"] (fun _ => true) c9Frame false []
  have h3 := sync_to_db_amended ["CW"] (fun _ => true)
    { c9Frame with fileOnDisk := false } false [c9Frame]
  exact ⟨h1.2.2.1 rfl rfl rfl rfl, h2.2.1 rfl rfl rfl rfl,
    (h3.2.2.2.2.2.2.1 rfl rfl).2.1⟩
